import Mathlib

/-!
Shallow embedding of the `aws-resource-provider-passwordpolicy` repository
(TypeScript), covering the policy model normalization layer
(`parseBoolean` / `parseInteger` / `PasswordPolicy.fromObject` / `toObject`)
and the five lifecycle handlers (`create`, `update`, `delete`, `read`, `list`)
of `src/src/handlers.ts`, together with the variant `parseInteger` found in
the alternate revision of the same file shipped as `src/unnamed/part_003`.

JavaScript numbers are modelled as exact rationals plus a distinguished `NaN`;
machine floating point never matters at the values exercised here (small
integers and halves).  Fallible JavaScript code (a thrown exception) is
modelled with `Except`; `undefined`/absent values with `Option`.
-/

/-- A JavaScript number: either `NaN` or an ordinary (finite) numeric value,
modelled as an exact rational. -/
inductive JSNum where
  | nan
  | num (q : ℚ)
deriving DecidableEq, Repr

/-- A raw JSON-ish scalar value as it arrives from the template / remote API:
a string, a number, a boolean, or JavaScript `null`.  Absence (`undefined` /
missing key) is modelled by `Option` around this type. -/
inductive RawValue where
  | str (s : String)
  | num (j : JSNum)
  | bool (b : Bool)
  | null
deriving DecidableEq, Repr

/-- A parsed JSON value, the result type of `JSON.parse`.  A number literal is
kept exact as `mant × 10 ^ exp10` (sign folded into the mantissa); this avoids
any rational normalization inside the parser, and is all that truthiness and
the concrete inputs of this development need. -/
inductive JSVal where
  | null
  | bool (b : Bool)
  | num (mant : ℤ) (exp10 : ℤ)
  | str (s : String)
  | arr (elems : List JSVal)
  | obj (fields : List (String × JSVal))

/-- JSON whitespace (RFC 8259): space, tab, line feed, carriage return. -/
def jsonWs (c : Char) : Bool :=
  c = ' ' || c = '\t' || c = '\n' || c = '\r'

/-- Drop leading JSON whitespace. -/
def dropJsonWs (cs : List Char) : List Char := cs.dropWhile jsonWs

/-- Numeric value of a big-endian list of decimal digit characters
(Horner evaluation, as `Number.parseInt` accumulates digits). -/
def digitsVal (ds : List Char) : ℕ :=
  ds.foldl (fun n c => n * 10 + (c.toNat - 48)) 0

/-- Hexadecimal value of one character, for `\u` escapes. -/
def hexDigitVal (c : Char) : Option ℕ :=
  if '0' ≤ c ∧ c ≤ '9' then some (c.toNat - 48)
  else if 'a' ≤ c ∧ c ≤ 'f' then some (c.toNat - 97 + 10)
  else if 'A' ≤ c ∧ c ≤ 'F' then some (c.toNat - 65 + 10)
  else none

/-- Resolve a single-character JSON string escape (`\"`, `\\`, `\/`, `\b`,
`\f`, `\n`, `\r`, `\t`). -/
def jsonEscape (c : Char) : Option Char :=
  match c with
  | '"' => some '"'
  | '\\' => some '\\'
  | '/' => some '/'
  | 'b' => some (Char.ofNat 8)
  | 'f' => some (Char.ofNat 12)
  | 'n' => some '\n'
  | 'r' => some '\r'
  | 't' => some '\t'
  | _ => none

/-- Parse the body of a JSON string literal (after the opening quote),
accumulating characters; control characters below U+0020 are rejected, as in
`JSON.parse`.  Returns the string contents and the remaining input. -/
def jsonStrBody (acc : List Char) : List Char → Option (String × List Char)
  | [] => none
  | '"' :: rest => some (String.mk acc.reverse, rest)
  | '\\' :: 'u' :: a :: b :: c :: d :: rest => do
    let va ← hexDigitVal a
    let vb ← hexDigitVal b
    let vc ← hexDigitVal c
    let vd ← hexDigitVal d
    jsonStrBody (Char.ofNat (((va * 16 + vb) * 16 + vc) * 16 + vd) :: acc) rest
  | '\\' :: e :: rest => do
    let ch ← jsonEscape e
    jsonStrBody (ch :: acc) rest
  | c :: rest =>
    if c.toNat < 32 then none else jsonStrBody (c :: acc) rest

/-- Split off a maximal run of decimal digits. -/
def spanDigits (cs : List Char) : List Char × List Char :=
  (cs.takeWhile Char.isDigit, cs.dropWhile Char.isDigit)

/-- Parse a JSON number literal: `-? (0 | [1-9][0-9]*) (. [0-9]+)? ([eE][+-]?[0-9]+)?`.
JSON forbids leading zeros, a bare trailing dot, and an empty exponent. -/
def jsonNumLit (cs : List Char) : Option ((ℤ × ℤ) × List Char) :=
  let (neg, cs1) := match cs with
    | '-' :: r => (true, r)
    | _ => (false, cs)
  let intPart : Option (List Char × List Char) := match cs1 with
    | '0' :: r => some ([ '0' ], r)
    | c :: _ => if c.isDigit then some (spanDigits cs1) else none
    | [] => none
  match intPart with
  | none => none
  | some (ids, cs2) =>
    let fracPart : Option (List Char × List Char) := match cs2 with
      | '.' :: r =>
        let (ds, r2) := spanDigits r
        if ds.isEmpty then none else some (ds, r2)
      | _ => some ([], cs2)
    match fracPart with
    | none => none
    | some (fds, cs3) =>
      let expPart : Option (ℤ × List Char) := match cs3 with
        | 'e' :: r | 'E' :: r =>
          let (esign, r1) : ℤ × List Char := match r with
            | '+' :: r2 => (1, r2)
            | '-' :: r2 => (-1, r2)
            | _ => (1, r)
          let (eds, r3) := spanDigits r1
          if eds.isEmpty then none else some (esign * digitsVal eds, r3)
        | _ => some (0, cs3)
      match expPart with
      | none => none
      | some (e, cs4) =>
        let mant : ℤ := (if neg then -1 else 1) * digitsVal (ids ++ fds)
        some ((mant, e - fds.length), cs4)

mutual

/-- One step of `JSON.parse`: parse a JSON value from the input, with a fuel
counter for totality (each recursive call sits behind at least one consumed
character, so `length + 1` fuel always suffices). -/
def jsonVal : ℕ → List Char → Option (JSVal × List Char)
  | 0, _ => none
  | fuel + 1, cs =>
    match dropJsonWs cs with
    | 't' :: 'r' :: 'u' :: 'e' :: r => some (.bool true, r)
    | 'f' :: 'a' :: 'l' :: 's' :: 'e' :: r => some (.bool false, r)
    | 'n' :: 'u' :: 'l' :: 'l' :: r => some (.null, r)
    | '"' :: r => (jsonStrBody [] r).map (fun p => (.str p.1, p.2))
    | '[' :: r =>
      (match dropJsonWs r with
       | ']' :: r2 => some (.arr [], r2)
       | r2 => (jsonItems fuel r2).map (fun p => (.arr p.1, p.2)))
    | '{' :: r =>
      (match dropJsonWs r with
       | '}' :: r2 => some (.obj [], r2)
       | r2 => (jsonPairs fuel r2).map (fun p => (.obj p.1, p.2)))
    | c :: r =>
      if c = '-' ∨ c.isDigit then (jsonNumLit (c :: r)).map (fun p => (.num p.1.1 p.1.2, p.2))
      else none
    | [] => none

/-- One-or-more comma-separated array elements, up to the closing bracket. -/
def jsonItems : ℕ → List Char → Option (List JSVal × List Char)
  | 0, _ => none
  | fuel + 1, cs => do
    let (v, r) ← jsonVal fuel cs
    match dropJsonWs r with
    | ',' :: r2 => do
      let (vs, r3) ← jsonItems fuel r2
      pure (v :: vs, r3)
    | ']' :: r2 => pure ([v], r2)
    | _ => none

/-- One-or-more comma-separated object members, up to the closing brace. -/
def jsonPairs : ℕ → List Char → Option (List (String × JSVal) × List Char)
  | 0, _ => none
  | fuel + 1, cs =>
    match dropJsonWs cs with
    | '"' :: r => do
      let (key, r1) ← jsonStrBody [] r
      match dropJsonWs r1 with
      | ':' :: r2 => do
        let (v, r3) ← jsonVal fuel r2
        match dropJsonWs r3 with
        | ',' :: r4 => do
          let (ms, r5) ← jsonPairs fuel r4
          pure ((key, v) :: ms, r5)
        | '}' :: r4 => pure ([(key, v)], r4)
        | _ => none
      | _ => none
    | _ => none

end

/-- Model of `JSON.parse`: parse one JSON value, allowing surrounding
whitespace and rejecting trailing input; `none` models a thrown
`SyntaxError`. -/
def jsonParse (s : String) : Option JSVal :=
  match jsonVal (s.length + 1) s.data with
  | some (v, rest) => if (dropJsonWs rest).isEmpty then some v else none
  | none => none

/-- JavaScript truthiness (`!!v`) of a value produced by `JSON.parse`
(`JSON.parse` never yields `NaN`, `undefined`, or an empty-slot value). -/
def jsTruthy : JSVal → Bool
  | .null => false
  | .bool b => b
  | .num mant _ => mant ≠ 0
  | .str s => s ≠ ""
  | .arr _ => true
  | .obj _ => true

/-- Whitespace skipped by `Number.parseInt` (the ASCII members of the
ECMAScript WhiteSpace / LineTerminator classes). -/
def jsParseIntWs (c : Char) : Bool :=
  c = ' ' || c = '\t' || c = '\n' || c = '\r' || c = Char.ofNat 11 || c = Char.ofNat 12

/-- The digit-consuming tail of `Number.parseInt`: take the longest prefix of
decimal digits; no digits gives `NaN`, otherwise the signed base-10 value
(trailing garbage is ignored). -/
def jsParseIntDigits (sign : ℤ) (cs : List Char) : JSNum :=
  let ds := cs.takeWhile Char.isDigit
  if ds.isEmpty then .nan else .num ((sign * digitsVal ds : ℤ) : ℚ)

/-- The sign-consuming step of `Number.parseInt`: one optional leading `+`
or `-`. -/
def jsParseIntSigned : List Char → JSNum
  | '-' :: r => jsParseIntDigits (-1) r
  | '+' :: r => jsParseIntDigits 1 r
  | cs => jsParseIntDigits 1 cs

/-- Model of `Number.parseInt(s, 10)`: skip leading whitespace, read an
optional sign, then the longest prefix of decimal digits. -/
def jsParseInt (s : String) : JSNum :=
  jsParseIntSigned (s.data.dropWhile jsParseIntWs)

/-- Model of `Math.trunc`: truncation toward zero (`NaN` propagates).
`Int.tdiv` on the reduced numerator/denominator is exactly
truncation toward zero. -/
def jsTrunc : JSNum → JSNum
  | .nan => .nan
  | .num q => .num ((q.num.tdiv q.den : ℤ) : ℚ)

/-- Least `k ≤ 1100` such that `q` has an exact decimal expansion with `k`
fractional digits (1100 covers every IEEE double).  Used only to print
non-integral numbers. -/
def decExpLen (n d : ℕ) : Option ℕ :=
  (List.range 1101).find? (fun k => (n * 10 ^ k) % d = 0)

/-- Model of JavaScript number-to-string on the values arising here:
integers print with no decimal point, and numbers with a finite decimal
expansion print sign, integer part, point, and the minimal run of fraction
digits (matching the shortest-round-trip form for such doubles). -/
def jsNumToString : JSNum → String
  | .nan => "NaN"
  | .num q =>
    if q.den = 1 then toString q.num
    else
      match decExpLen q.num.natAbs q.den with
      | some k =>
        let scaled := q.num.natAbs * 10 ^ k / q.den
        let ip := scaled / 10 ^ k
        let fr := scaled % 10 ^ k
        let frs := Nat.repr fr
        let pad := String.mk (List.replicate (k - frs.length) '0') ++ frs
        (if q.num < 0 then "-" else "") ++ Nat.repr ip ++ "." ++ pad
      | none => toString q.num ++ "/" ++ toString q.den

/-- Model of JavaScript `toLowerCase()` on the ASCII strings arising here:
lower-case every character. -/
def jsToLowerCase (s : String) : String :=
  String.mk (s.data.map Char.toLower)

/-- Model of JavaScript `String(v)` on a raw scalar value. -/
def jsString : RawValue → String
  | .str s => s
  | .num j => jsNumToString j
  | .bool true => "true"
  | .bool false => "false"
  | .null => "null"

/-- A raw object (plain JavaScript object) as an association list from keys to
raw scalar values; a missing key models an `undefined` property. -/
abbrev RawObj := List (String × RawValue)

/-- Property access on a raw object: the value at the first occurrence of the
key, or `none` when the key is missing. -/
def lookupKey : RawObj → String → Option RawValue
  | [], _ => none
  | (k, v) :: rest, key => if key = k then some v else lookupKey rest key

/-- Model of `delete obj[key]`: every binding of the key is removed. -/
def eraseKey (obj : RawObj) (key : String) : RawObj :=
  obj.filter (fun p => p.1 ≠ key)

/-- An error object thrown by the remote AWS SDK call: an optional `code`
property (AWS service errors carry one, e.g. `NoSuchEntity`) and a `message`. -/
structure RemoteErr where
  code : Option String := none
  message : String := ""
deriving DecidableEq, Repr

/-- The errors a handler can throw: the host framework's `NotFound` and
`InternalFailure` exception classes, a parse failure from the model
normalization layer (a thrown coercion error, the spec's ParseError), and an
arbitrary remote error rethrown unchanged (`jsRemote e` is the original
error object `e`, not a wrapper). -/
inductive JSError where
  | notFound (typeName : String) (identifier : Option String)
  | internalFailure (message : String)
  | parseError
  | jsRemote (e : RemoteErr)
deriving DecidableEq, Repr

deriving instance DecidableEq for Except

/-- JavaScript `a || b` on optional strings: `a` unless it is absent or
empty (the empty string is falsy), otherwise `b`. -/
def jsOrStr (a b : Option String) : Option String :=
  match a with
  | some s => if s = "" then b else some s
  | none => b

/-- JavaScript falsiness of an optional string (`!x`): absent or empty. -/
def jsStrFalsy : Option String → Bool
  | none => true
  | some s => s = ""

namespace Handlers

/-- Embeds `parseBoolean` of `src/src/handlers.ts` (lines 27-31): a present,
non-null value is lower-cased, fed to `JSON.parse`, and coerced with `!!`;
an absent or null value yields `undefined`.  A `JSON.parse` `SyntaxError`
(the spec's ParseError) is the `Except.error` case. -/
def parseBoolean (value : Option RawValue) : Except JSError (Option Bool) :=
  match value with
  | none | some .null => .ok none
  | some v =>
    match jsonParse (jsToLowerCase (jsString v)) with
    | some j => .ok (some (jsTruthy j))
    | none => .error .parseError

/-- Embeds `parseInteger` of `src/src/handlers.ts` (lines 33-37): only a
truthy string is parsed (`Number.parseInt(value, 10)`); every other input —
including any numeric value — falls through and yields `undefined`. -/
def parseInteger (value : Option RawValue) : Option JSNum :=
  match value with
  | some (.str s) => if s = "" then none else some (jsParseInt s)
  | _ => none

/-- Embeds the `PasswordPolicy` model class: each field is optional, with
`ExpirePasswords` carrying no serialization annotation (it is neither parsed
nor serialized). -/
structure PasswordPolicy where
  ResourceId : Option String := none
  MinimumPasswordLength : Option JSNum := none
  RequireSymbols : Option Bool := none
  RequireNumbers : Option Bool := none
  RequireUppercaseCharacters : Option Bool := none
  RequireLowercaseCharacters : Option Bool := none
  AllowUsersToChangePassword : Option Bool := none
  ExpirePasswords : Option Bool := none
  MaxPasswordAge : Option JSNum := none
  PasswordReusePrevention : Option JSNum := none
  HardExpiry : Option Bool := none
deriving DecidableEq, Repr

/-- Modelled from the spec: `PasswordPolicy.TYPE_NAME` comes from the
generated `models.ts`, which is not among the sources; §6 of the spec gives
the registered resource type name. -/
def TYPE_NAME : String := "OC::Organizations::PasswordPolicy"

/-- Deserialization of the `ResourceId` member (declared with
`constructor: String`, no custom deserializer): a string passes through
unchanged, absence/null stays absent, and a value of the wrong type is a
deserialization error. -/
def parseStringMember (value : Option RawValue) : Except JSError (Option String) :=
  match value with
  | none | some .null => .ok none
  | some (.str s) => .ok (some s)
  | some _ => .error .parseError

/-- Embeds `PasswordPolicy.fromObject` (TypedJSON `parse`): each annotated
member is read from the raw object and run through its declared deserializer;
a member deserializer throwing makes the whole parse fail.  The TypedJSON
library itself is an external dependency, modelled here at its interface as
the spec describes it (a coercion failure surfaces as the ParseError of §4.1
and §7).  `ExpirePasswords` has no annotation and is never populated. -/
def fromObject (input : RawObj) : Except JSError PasswordPolicy := do
  let rid ← parseStringMember (lookupKey input "ResourceId")
  let minLen := parseInteger (lookupKey input "MinimumPasswordLength")
  let reqSym ← parseBoolean (lookupKey input "RequireSymbols")
  let reqNum ← parseBoolean (lookupKey input "RequireNumbers")
  let reqUp ← parseBoolean (lookupKey input "RequireUppercaseCharacters")
  let reqLow ← parseBoolean (lookupKey input "RequireLowercaseCharacters")
  let allowChange ← parseBoolean (lookupKey input "AllowUsersToChangePassword")
  let maxAge := parseInteger (lookupKey input "MaxPasswordAge")
  let reuse := parseInteger (lookupKey input "PasswordReusePrevention")
  let hardExp ← parseBoolean (lookupKey input "HardExpiry")
  return { ResourceId := rid
           MinimumPasswordLength := minLen
           RequireSymbols := reqSym
           RequireNumbers := reqNum
           RequireUppercaseCharacters := reqUp
           RequireLowercaseCharacters := reqLow
           AllowUsersToChangePassword := allowChange
           ExpirePasswords := none
           MaxPasswordAge := maxAge
           PasswordReusePrevention := reuse
           HardExpiry := hardExp }

/-- A present member serializes to one binding; an absent member is skipped. -/
def optMember (key : String) : Option RawValue → RawObj
  | none => []
  | some v => [(key, v)]

/-- Embeds `PasswordPolicy.toObject` (TypedJSON `toPlainJson`): every present
annotated member is emitted under its own name with its native value, in
declaration order; absent members and the unannotated `ExpirePasswords` are
omitted. -/
def toObject (m : PasswordPolicy) : RawObj :=
  optMember "ResourceId" (m.ResourceId.map .str) ++
  optMember "MinimumPasswordLength" (m.MinimumPasswordLength.map .num) ++
  optMember "RequireSymbols" (m.RequireSymbols.map .bool) ++
  optMember "RequireNumbers" (m.RequireNumbers.map .bool) ++
  optMember "RequireUppercaseCharacters" (m.RequireUppercaseCharacters.map .bool) ++
  optMember "RequireLowercaseCharacters" (m.RequireLowercaseCharacters.map .bool) ++
  optMember "AllowUsersToChangePassword" (m.AllowUsersToChangePassword.map .bool) ++
  optMember "MaxPasswordAge" (m.MaxPasswordAge.map .num) ++
  optMember "PasswordReusePrevention" (m.PasswordReusePrevention.map .num) ++
  optMember "HardExpiry" (m.HardExpiry.map .bool)

end Handlers

namespace HandlersV3

/-- Embeds `parseInteger` of the alternate revision `src/unnamed/part_003`
(lines 39-47): a present, non-null string goes through
`Number.parseInt(value, 10)`, a present numeric value through `Math.trunc`,
and anything else yields `undefined`. -/
def parseInteger (value : Option RawValue) : Option JSNum :=
  match value with
  | none | some .null => none
  | some (.str s) => some (jsParseInt s)
  | some (.num j) => some (jsTrunc j)
  | some (.bool _) => none

end HandlersV3

namespace Handlers

/-- The host's operation status values (`OperationStatus`). -/
inductive OperationStatus where
  | InProgress
  | Success
  | Failed
deriving DecidableEq, Repr

/-- The progress/result event a handler returns: a status, an optional single
resource model, and an optional list of models (whose entries can be the
JavaScript `null` model, hence `Option` inside the list). -/
structure ProgressEvent where
  status : OperationStatus
  resourceModel : Option PasswordPolicy := none
  resourceModels : Option (List (Option PasswordPolicy)) := none
deriving DecidableEq, Repr

/-- The request object passed to a handler: raw desired and previous states
and the logical resource identifier. -/
structure ResourceHandlerRequest where
  desiredResourceState : RawObj := []
  previousResourceState : RawObj := []
  logicalResourceIdentifier : Option String := none
deriving DecidableEq, Repr

/-- A remote IAM API invocation, recorded so theorems can speak about which
calls a handler performed and with which write request. -/
inductive RemoteCall where
  | getAccountPasswordPolicy
  | updateAccountPasswordPolicy (params : RawObj)
  | deleteAccountPasswordPolicy
deriving DecidableEq, Repr

/-- Embeds `retrievePasswordPolicy` (lines 84-115).  The session is `some _`
when a `SessionProxy` instance was supplied.  `readResult` is the outcome of
the remote `getAccountPasswordPolicy()` call, already projected to its
`PasswordPolicy` response property; it is an oracle parameter since the
remote service is outside the program.  With no session, nothing is called
and a null model is returned.  With a session the call is made, the response
is parsed and stamped with `resourceId || logicalResourceId`; a thrown error
whose `code` is `NoSuchEntity` becomes the host's `NotFound` carrying
`resourceId || logicalResourceId`, and any other thrown error (remote or
parse) is rethrown unchanged.  The second component records the remote calls
made. -/
def retrievePasswordPolicy (session : Option Unit) (readResult : Except RemoteErr RawObj)
    (resourceId logicalResourceId : Option String) :
    Except JSError (Option PasswordPolicy) × List RemoteCall :=
  match session with
  | none => (.ok none, [])
  | some _ =>
    let result : Except JSError (Option PasswordPolicy) :=
      match readResult with
      | .error e =>
        if e.code = some "NoSuchEntity" then
          .error (.notFound TYPE_NAME (jsOrStr resourceId logicalResourceId))
        else
          .error (.jsRemote e)
      | .ok obj =>
        match fromObject obj with
        | .error pe => .error pe
        | .ok m => .ok (some { m with ResourceId := jsOrStr resourceId logicalResourceId })
    (result, [.getAccountPasswordPolicy])

/-- Embeds `upsertPasswordPolicy` (lines 127-154).  `writeResult` is the
outcome of the remote `updateAccountPasswordPolicy(params)` call and
`newUuid` the string `uuidv4()` would produce.  With no session nothing is
called and the model is returned as-is.  With a session, the model is
serialized, `ResourceId` is deleted from the write request, the call is made;
on success a falsy (absent/empty) `ResourceId` is replaced by the fresh uuid,
and any thrown error is wrapped as `InternalFailure` of its message. -/
def upsertPasswordPolicy (session : Option Unit) (writeResult : Except RemoteErr Unit)
    (newUuid : String) (model : PasswordPolicy) (logicalResourceId : Option String) :
    Except JSError PasswordPolicy × List RemoteCall :=
  match session with
  | none => (.ok model, [])
  | some _ =>
    let params := eraseKey (toObject model) "ResourceId"
    match writeResult with
    | .error e => (.error (.internalFailure e.message), [.updateAccountPasswordPolicy params])
    | .ok _ =>
      (.ok (if jsStrFalsy model.ResourceId then { model with ResourceId := some newUuid } else model),
       [.updateAccountPasswordPolicy params])

namespace Resource

/-- Embeds the Create handler (lines 166-183): parse the desired state, build
an InProgress event carrying the model, upsert, then overwrite the event's
model with the upsert result and its status with Success.  A parse or upsert
error is thrown. -/
def create (session : Option Unit) (writeResult : Except RemoteErr Unit) (newUuid : String)
    (request : ResourceHandlerRequest) : Except JSError ProgressEvent × List RemoteCall :=
  match fromObject request.desiredResourceState with
  | .error e => (.error e, [])
  | .ok model =>
    let (r, calls) := upsertPasswordPolicy session writeResult newUuid model
      request.logicalResourceIdentifier
    match r with
    | .error e => (.error e, calls)
    | .ok m => (.ok { status := .Success, resourceModel := some m }, calls)

/-- Embeds the Update handler (lines 193-215): parse the desired state,
retrieve the current remote state (result discarded), then upsert the desired
state; the final event has Success status and the upserted model.  An error
thrown by the retrieve (in particular its NotFound) aborts before any write
call. -/
def update (session : Option Unit) (readResult : Except RemoteErr RawObj)
    (writeResult : Except RemoteErr Unit) (newUuid : String)
    (request : ResourceHandlerRequest) : Except JSError ProgressEvent × List RemoteCall :=
  match fromObject request.desiredResourceState with
  | .error e => (.error e, [])
  | .ok model =>
    let (r1, calls1) := retrievePasswordPolicy session readResult model.ResourceId
      request.logicalResourceIdentifier
    match r1 with
    | .error e => (.error e, calls1)
    | .ok _ =>
      let (r2, calls2) := upsertPasswordPolicy session writeResult newUuid model
        request.logicalResourceIdentifier
      match r2 with
      | .error e => (.error e, calls1 ++ calls2)
      | .ok m => (.ok { status := .Success, resourceModel := some m }, calls1 ++ calls2)

/-- Embeds the Delete handler (lines 226-261): parse the desired state, build
an InProgress event carrying that parsed model, retrieve the current policy
(resolving the ResourceId and surfacing NotFound), call the remote delete API
(`deleteResult` is its outcome), wrap its failure as InternalFailure, and
finish by setting the status to Success.  The event's `resourceModel` is
never reassigned, so the returned event still carries the model parsed from
the desired state. -/
def deleteHandler (session : Option Unit) (readResult : Except RemoteErr RawObj)
    (deleteResult : Except RemoteErr Unit) (request : ResourceHandlerRequest) :
    Except JSError ProgressEvent × List RemoteCall :=
  match fromObject request.desiredResourceState with
  | .error e => (.error e, [])
  | .ok model =>
    let (r1, calls1) := retrievePasswordPolicy session readResult model.ResourceId
      request.logicalResourceIdentifier
    match r1 with
    | .error e => (.error e, calls1)
    | .ok _ =>
      match session with
      | none => (.ok { status := .Success, resourceModel := some model }, calls1)
      | some _ =>
        match deleteResult with
        | .error e => (.error (.internalFailure e.message), calls1 ++ [.deleteAccountPasswordPolicy])
        | .ok _ =>
          (.ok { status := .Success, resourceModel := some model },
           calls1 ++ [.deleteAccountPasswordPolicy])

/-- Property access `request.desiredResourceState.ResourceId` on the raw
(unparsed) request state, as the Read and List handlers perform it. -/
def rawResourceId (obj : RawObj) : Option String :=
  match lookupKey obj "ResourceId" with
  | some (.str s) => some s
  | _ => none

/-- Embeds the Read handler (lines 271-289): retrieve by the desired state's
raw ResourceId and return a Success event carrying the retrieved model
(null when there is no session). -/
def read (session : Option Unit) (readResult : Except RemoteErr RawObj)
    (request : ResourceHandlerRequest) : Except JSError ProgressEvent × List RemoteCall :=
  let (r, calls) := retrievePasswordPolicy session readResult
    (rawResourceId request.desiredResourceState) request.logicalResourceIdentifier
  match r with
  | .error e => (.error e, calls)
  | .ok mOpt => (.ok { status := .Success, resourceModel := mOpt }, calls)

/-- Embeds the List handler (lines 299-325): attempt the retrieve and push
its result (possibly the null model) onto the list; a thrown NotFound is
swallowed, leaving the list empty, and any other error is rethrown.  The
event has Success status and the collected list. -/
def list (session : Option Unit) (readResult : Except RemoteErr RawObj)
    (request : ResourceHandlerRequest) : Except JSError ProgressEvent × List RemoteCall :=
  let (r, calls) := retrievePasswordPolicy session readResult
    (rawResourceId request.desiredResourceState) request.logicalResourceIdentifier
  match r with
  | .ok mOpt => (.ok { status := .Success, resourceModels := some [mOpt] }, calls)
  | .error (.notFound _ _) => (.ok { status := .Success, resourceModels := some [] }, calls)
  | .error e => (.error e, calls)

end Resource

end Handlers

/-! ### Supporting lemmas -/

/-- Truncated division of a rational's numerator by its denominator is floor
for nonnegative arguments and ceiling for negative ones — that is, rounding
toward zero, the semantics of `Math.trunc`. -/
theorem tdiv_num_den (q : ℚ) : q.num.tdiv q.den = if 0 ≤ q then ⌊q⌋ else ⌈q⌉ := by
  by_cases h : 0 ≤ q
  · rw [if_pos h, Rat.floor_def]
    exact Int.tdiv_eq_ediv (Rat.num_nonneg.mpr h) (Int.natCast_nonneg _)
  · rw [if_neg h]
    have hq : 0 ≤ -q := by
      have := not_le.mp h
      linarith
    have hnum : 0 ≤ (-q).num := Rat.num_nonneg.mpr hq
    have hstep : q.num.tdiv q.den = -((-q).num.tdiv (-q).den) := by
      rw [Rat.neg_num, Rat.neg_den, Int.neg_tdiv, neg_neg]
    rw [hstep, Int.tdiv_eq_ediv hnum (Int.natCast_nonneg _), ← Rat.floor_def,
      Int.floor_neg, neg_neg]

/-- Horner evaluation of digit characters agrees with the base-10 value of
the corresponding little-endian digit list. -/
theorem foldl_digits_eq (f : Char → ℕ) :
    ∀ (ds : List Char) (a : ℕ),
      ds.foldl (fun n c => n * 10 + f c) a =
        a * 10 ^ ds.length + Nat.ofDigits 10 ((ds.map f).reverse)
  | [], a => by simp [Nat.ofDigits_nil]
  | c :: ds, a => by
    rw [List.foldl_cons, foldl_digits_eq f ds (a * 10 + f c)]
    simp only [List.map_cons, List.reverse_cons, Nat.ofDigits_append,
      Nat.ofDigits_singleton, List.length_cons, List.length_reverse,
      List.length_map, pow_succ]
    ring

/-- `digitsVal` really is the base-10 value of the digit string. -/
theorem digitsVal_eq_ofDigits (ds : List Char) :
    digitsVal ds = Nat.ofDigits 10 ((ds.map (fun c => c.toNat - 48)).reverse) := by
  have := foldl_digits_eq (fun c => c.toNat - 48) ds 0
  simpa [digitsVal] using this

/-- A decimal digit is not `parseInt` whitespace. -/
theorem not_jsParseIntWs_of_digit {c : Char} (h : c.isDigit) : jsParseIntWs c = false := by
  cases hws : jsParseIntWs c
  · rfl
  · rcases (by simpa [jsParseIntWs] using hws) with ((((h1 | h1) | h1) | h1) | h1) | h1 <;>
      (subst h1; exact absurd h (by decide))

/-- A digit head is neither a sign, so `jsParseIntSigned` skips nothing. -/
theorem jsParseIntSigned_digit {c : Char} (cs : List Char) (hc : c.isDigit) :
    jsParseIntSigned (c :: cs) = jsParseIntDigits 1 (c :: cs) := by
  have hcminus : c ≠ '-' := by intro h; subst h; exact absurd hc (by decide)
  have hcplus : c ≠ '+' := by intro h; subst h; exact absurd hc (by decide)
  unfold jsParseIntSigned
  split
  next heq => exact absurd (List.cons.injEq .. ▸ heq).1 hcminus
  next heq => exact absurd (List.cons.injEq .. ▸ heq).1 hcplus
  next => rfl

/-- On a nonempty all-digit string, `Number.parseInt(s, 10)` returns exactly
the base-10 value of the digits. -/
theorem jsParseInt_digits (s : String) (h1 : s ≠ "") (h2 : ∀ c ∈ s.data, c.isDigit) :
    jsParseInt s = .num (digitsVal s.data) := by
  obtain ⟨c, cs, hd⟩ : ∃ c cs, s.data = c :: cs := by
    cases hsd : s.data with
    | nil =>
      refine absurd ?_ h1
      cases s with
      | mk d =>
        have hd2 : d = [] := hsd
        subst hd2
        rfl
    | cons c cs => exact ⟨c, cs, rfl⟩
  have hc : c.isDigit := h2 c (hd ▸ List.mem_cons_self c cs)
  have hws : jsParseIntWs c = false := not_jsParseIntWs_of_digit hc
  have hdrop : s.data.dropWhile jsParseIntWs = c :: cs := by
    rw [hd, List.dropWhile_cons, hws]
    simp
  have htake : (c :: cs).takeWhile Char.isDigit = c :: cs :=
    List.takeWhile_eq_self_iff.mpr (by intro a ha; exact h2 a (hd ▸ ha))
  rw [jsParseInt, hdrop, jsParseIntSigned_digit cs hc, jsParseIntDigits]
  simp only [htake, List.isEmpty_cons, Bool.false_eq_true, if_false]
  rw [hd]
  congr 1
  push_cast
  ring

/-! ### Claim C1 -/

/-- C1 counterexample: the claim says a fractional numeric value truncates
toward zero, but `parseInteger` of `src/src/handlers.ts` only parses string
inputs — on the numeric value `17/2` it yields an absent field (and so does
`fromObject` on an integer member holding `17/2`), not the truncation `8`. -/
theorem spec_C1_counterexample :
    Handlers.parseInteger (some (.num (.num (mkRat 17 2)))) = none ∧
    Handlers.fromObject [("MinimumPasswordLength", .num (.num (mkRat 17 2)))] =
      .ok { MinimumPasswordLength := none } ∧
    (none : Option JSNum) ≠ some (.num 8) :=
  ⟨rfl, by decide, by decide⟩

/-- C1 (amended): for integer fields, a nonempty numeric string parses to its
base-10 integer value and an absent input yields an absent field under both
revisions of `parseInteger`; a numeric input yields an absent field under the
`src/src/handlers.ts` revision (which parses only strings), while the
`part_003` revision truncates it toward zero (floor when nonnegative, ceiling
when negative) as the claim states. -/
theorem spec_C1 :
    (∀ s : String, s ≠ "" → (∀ c ∈ s.data, c.isDigit) →
      Handlers.parseInteger (some (.str s)) = some (.num (digitsVal s.data)) ∧
      HandlersV3.parseInteger (some (.str s)) = some (.num (digitsVal s.data)) ∧
      digitsVal s.data = Nat.ofDigits 10 ((s.data.map (fun c => c.toNat - 48)).reverse)) ∧
    Handlers.parseInteger none = none ∧
    HandlersV3.parseInteger none = none ∧
    (∀ j : JSNum, Handlers.parseInteger (some (.num j)) = none) ∧
    (∀ q : ℚ, HandlersV3.parseInteger (some (.num (.num q))) =
      some (.num ((if 0 ≤ q then ⌊q⌋ else ⌈q⌉ : ℤ) : ℚ))) := by
  refine ⟨?_, rfl, rfl, fun j => rfl, fun q => ?_⟩
  · intro s h1 h2
    refine ⟨?_, ?_, digitsVal_eq_ofDigits _⟩
    · simp [Handlers.parseInteger, h1, jsParseInt_digits s h1 h2]
    · simp [HandlersV3.parseInteger, jsParseInt_digits s h1 h2]
  · simp [HandlersV3.parseInteger, jsTrunc, tdiv_num_den]

/-- C1 witness: the amended claim applied at the numeral `"8"` and at the
fractional value `17/2`. -/
theorem spec_C1_witness :
    Handlers.parseInteger (some (.str "8")) = some (.num (digitsVal "8".data)) ∧
    HandlersV3.parseInteger (some (.num (.num (mkRat 17 2)))) =
      some (.num ((if 0 ≤ mkRat 17 2 then ⌊mkRat 17 2⌋ else ⌈mkRat 17 2⌉ : ℤ) : ℚ)) :=
  ⟨(spec_C1.1 "8" (by decide) (by decide)).1, spec_C1.2.2.2.2 (mkRat 17 2)⟩

/-- Bind on a successful `Except` computation runs the continuation. -/
@[simp] theorem exceptOkBind {ε α β : Type} (a : α) (f : α → Except ε β) :
    (Except.ok a : Except ε α) >>= f = f a := rfl

/-- Bind on a failed `Except` computation propagates the error. -/
@[simp] theorem exceptErrorBind {ε α β : Type} (e : ε) (f : α → Except ε β) :
    (Except.error e : Except ε α) >>= f = .error e := rfl

/-- Lookup through one optional serialized member followed by the rest. -/
theorem lookupKey_optMember_append (k : String) (v : Option RawValue) (rest : RawObj)
    (key : String) :
    lookupKey (Handlers.optMember k v ++ rest) key =
      if key = k ∧ v.isSome then v else lookupKey rest key := by
  cases v with
  | none => simp [Handlers.optMember]
  | some x =>
    by_cases h : key = k
    · simp [Handlers.optMember, lookupKey, h]
    · simp [Handlers.optMember, lookupKey, h]

/-- Lookup in a single optional serialized member. -/
theorem lookupKey_optMember (k : String) (v : Option RawValue) (key : String) :
    lookupKey (Handlers.optMember k v) key = if key = k ∧ v.isSome then v else none := by
  simpa using lookupKey_optMember_append k v [] key

/-- The `ResourceId` member of a serialized model is the model's field. -/
theorem lookup_toObject_ResourceId (m : Handlers.PasswordPolicy) :
    lookupKey (Handlers.toObject m) "ResourceId" = m.ResourceId.map .str := by
  cases h : m.ResourceId <;>
    simp [Handlers.toObject, lookupKey_optMember_append, lookupKey_optMember, h]

/-- The `MinimumPasswordLength` member of a serialized model. -/
theorem lookup_toObject_MinimumPasswordLength (m : Handlers.PasswordPolicy) :
    lookupKey (Handlers.toObject m) "MinimumPasswordLength" =
      m.MinimumPasswordLength.map .num := by
  cases h : m.MinimumPasswordLength <;>
    simp [Handlers.toObject, lookupKey_optMember_append, lookupKey_optMember, h]

/-- The `RequireSymbols` member of a serialized model. -/
theorem lookup_toObject_RequireSymbols (m : Handlers.PasswordPolicy) :
    lookupKey (Handlers.toObject m) "RequireSymbols" = m.RequireSymbols.map .bool := by
  cases h : m.RequireSymbols <;>
    simp [Handlers.toObject, lookupKey_optMember_append, lookupKey_optMember, h]

/-- The `RequireNumbers` member of a serialized model. -/
theorem lookup_toObject_RequireNumbers (m : Handlers.PasswordPolicy) :
    lookupKey (Handlers.toObject m) "RequireNumbers" = m.RequireNumbers.map .bool := by
  cases h : m.RequireNumbers <;>
    simp [Handlers.toObject, lookupKey_optMember_append, lookupKey_optMember, h]

/-- The `RequireUppercaseCharacters` member of a serialized model. -/
theorem lookup_toObject_RequireUppercaseCharacters (m : Handlers.PasswordPolicy) :
    lookupKey (Handlers.toObject m) "RequireUppercaseCharacters" =
      m.RequireUppercaseCharacters.map .bool := by
  cases h : m.RequireUppercaseCharacters <;>
    simp [Handlers.toObject, lookupKey_optMember_append, lookupKey_optMember, h]

/-- The `RequireLowercaseCharacters` member of a serialized model. -/
theorem lookup_toObject_RequireLowercaseCharacters (m : Handlers.PasswordPolicy) :
    lookupKey (Handlers.toObject m) "RequireLowercaseCharacters" =
      m.RequireLowercaseCharacters.map .bool := by
  cases h : m.RequireLowercaseCharacters <;>
    simp [Handlers.toObject, lookupKey_optMember_append, lookupKey_optMember, h]

/-- The `AllowUsersToChangePassword` member of a serialized model. -/
theorem lookup_toObject_AllowUsersToChangePassword (m : Handlers.PasswordPolicy) :
    lookupKey (Handlers.toObject m) "AllowUsersToChangePassword" =
      m.AllowUsersToChangePassword.map .bool := by
  cases h : m.AllowUsersToChangePassword <;>
    simp [Handlers.toObject, lookupKey_optMember_append, lookupKey_optMember, h]

/-- The `MaxPasswordAge` member of a serialized model. -/
theorem lookup_toObject_MaxPasswordAge (m : Handlers.PasswordPolicy) :
    lookupKey (Handlers.toObject m) "MaxPasswordAge" = m.MaxPasswordAge.map .num := by
  cases h : m.MaxPasswordAge <;>
    simp [Handlers.toObject, lookupKey_optMember_append, lookupKey_optMember, h]

/-- The `PasswordReusePrevention` member of a serialized model. -/
theorem lookup_toObject_PasswordReusePrevention (m : Handlers.PasswordPolicy) :
    lookupKey (Handlers.toObject m) "PasswordReusePrevention" =
      m.PasswordReusePrevention.map .num := by
  cases h : m.PasswordReusePrevention <;>
    simp [Handlers.toObject, lookupKey_optMember_append, lookupKey_optMember, h]

/-- The `HardExpiry` member of a serialized model. -/
theorem lookup_toObject_HardExpiry (m : Handlers.PasswordPolicy) :
    lookupKey (Handlers.toObject m) "HardExpiry" = m.HardExpiry.map .bool := by
  cases h : m.HardExpiry <;>
    simp [Handlers.toObject, lookupKey_optMember_append, lookupKey_optMember, h]

/-- A string field deserializes back to itself. -/
theorem parseStringMember_map (o : Option String) :
    Handlers.parseStringMember (o.map .str) = .ok o := by
  cases o <;> rfl

/-- A boolean field value emitted as a native boolean deserializes back to
itself (`String(true)` is `"true"`, which `JSON.parse` reads as `true`). -/
theorem parseBoolean_map (o : Option Bool) :
    Handlers.parseBoolean (o.map .bool) = .ok o := by
  cases o with
  | none => rfl
  | some b => cases b <;> decide

/-- An integer field value emitted as a native number is not recognized by
the `src/src/handlers.ts` `parseInteger`, which only parses strings. -/
theorem parseInteger_map (o : Option JSNum) :
    Handlers.parseInteger (o.map .num) = none := by
  cases o <;> rfl

/-! ### Claim C3 -/

/-- C3 counterexample: the claim says every string other than the true/false
table raises a ParseError, but `"1"` lower-cases to valid JSON, so
`parseBoolean` coerces it to `true` instead of raising. -/
theorem spec_C3_counterexample :
    Handlers.parseBoolean (some (.str "1")) = .ok (some true) ∧
    Except.ok (some true) ≠ (.error .parseError : Except JSError (Option Bool)) :=
  ⟨by decide, by decide⟩

/-- C3 (amended): the inputs `"true"`, `"false"`, `"TRUE"`, `"FALSE"`, the
native booleans, and an absent value map to true/false/true/false/true/false/
absent as claimed; a string whose lower-cased form is not valid JSON raises a
ParseError; but a string whose lower-cased form is any valid JSON value
coerces to that value's truthiness instead of raising (e.g. `"1"` to true and
`"0"` to false). -/
theorem spec_C3 :
    (Handlers.parseBoolean (some (.str "true")) = .ok (some true) ∧
     Handlers.parseBoolean (some (.str "false")) = .ok (some false) ∧
     Handlers.parseBoolean (some (.str "TRUE")) = .ok (some true) ∧
     Handlers.parseBoolean (some (.str "FALSE")) = .ok (some false) ∧
     Handlers.parseBoolean (some (.bool true)) = .ok (some true) ∧
     Handlers.parseBoolean (some (.bool false)) = .ok (some false) ∧
     Handlers.parseBoolean none = .ok none) ∧
    (∀ s : String, jsonParse (jsToLowerCase s) = none →
      Handlers.parseBoolean (some (.str s)) = .error .parseError) ∧
    (∀ (s : String) (j : JSVal), jsonParse (jsToLowerCase s) = some j →
      Handlers.parseBoolean (some (.str s)) = .ok (some (jsTruthy j))) ∧
    Handlers.parseBoolean (some (.str "1")) = .ok (some true) ∧
    Handlers.parseBoolean (some (.str "0")) = .ok (some false) ∧
    Handlers.parseBoolean (some (.str "yes")) = .error .parseError := by
  refine ⟨⟨by decide, by decide, by decide, by decide, by decide, by decide, rfl⟩,
    ?_, ?_, by decide, by decide, by decide⟩
  · intro s h
    simp [Handlers.parseBoolean, jsString, h]
  · intro s j h
    simp [Handlers.parseBoolean, jsString, h]

/-- C3 witness: the amended claim's quantified parts applied at the strings
`"boolean"` (not JSON, so ParseError) and `"null"` (JSON null, so false). -/
theorem spec_C3_witness :
    Handlers.parseBoolean (some (.str "boolean")) = .error .parseError ∧
    Handlers.parseBoolean (some (.str "null")) = .ok (some (jsTruthy .null)) :=
  ⟨spec_C3.2.1 "boolean" rfl, spec_C3.2.2.1 "null" .null rfl⟩

/-! ### Claim C4 -/

/-- C4 counterexample: the claim says an uncoercible present value always
raises a ParseError, but the non-numeric string `"abc"` on the integer field
`MinimumPasswordLength` parses successfully to a silent `NaN`. -/
theorem spec_C4_counterexample :
    Handlers.fromObject [("MinimumPasswordLength", .str "abc")] =
      .ok { MinimumPasswordLength := some .nan } ∧
    (Except.ok { MinimumPasswordLength := some JSNum.nan } :
      Except JSError Handlers.PasswordPolicy) ≠ .error .parseError :=
  ⟨by decide, by decide⟩

/-- C4 (amended): a present boolean-field value whose lower-cased string form
is not valid JSON does raise a ParseError, as claimed; but integer fields
never raise — the parse succeeds with whatever `parseInteger` yields, which
is a silent `NaN` for a non-numeric string such as `"abc"` (and an absent
field for any numeric value, per C1). -/
theorem spec_C4 :
    (∀ s : String, jsonParse (jsToLowerCase s) = none →
      Handlers.fromObject [("RequireSymbols", .str s)] = .error .parseError) ∧
    (∀ v : RawValue, Handlers.fromObject [("MinimumPasswordLength", v)] =
      .ok { MinimumPasswordLength := Handlers.parseInteger (some v) }) ∧
    Handlers.parseInteger (some (.str "abc")) = some .nan := by
  refine ⟨?_, ?_, by decide⟩
  · intro s h
    simp [Handlers.fromObject, Handlers.parseBoolean, Handlers.parseStringMember,
      lookupKey, jsString, h]
  · intro v
    simp [Handlers.fromObject, Handlers.parseBoolean, Handlers.parseStringMember,
      lookupKey, show Handlers.parseInteger none = none from rfl]

/-! ### Claim C5 -/

/-- C5 counterexample: a model with only `MinimumPasswordLength := 8` does
not survive the round trip — `toObject` emits the native number 8, which
`parseInteger` (strings only) throws away, so the reparsed model has an
absent `MinimumPasswordLength`, not 8. -/
theorem spec_C5_counterexample :
    Handlers.fromObject
        (Handlers.toObject { MinimumPasswordLength := some (.num 8) }) =
      .ok ({} : Handlers.PasswordPolicy) ∧
    ({} : Handlers.PasswordPolicy) ≠ { MinimumPasswordLength := some (.num 8) } :=
  ⟨by decide, by decide⟩

/-- C5 (amended): for every model `m`, `parse(serialize(m))` reproduces `m`
with its three integer fields and `ExpirePasswords` made absent: the boolean
fields and `ResourceId` round-trip exactly (`ResourceId` is not excluded by
`toObject` itself — it is stripped only on the upsert path), `ExpirePasswords`
carries no serialization annotation, and the integer fields are lost because
`toObject` emits them as native numbers, which the `src/src/handlers.ts`
`parseInteger` does not accept. -/
theorem spec_C5 (m : Handlers.PasswordPolicy) :
    Handlers.fromObject (Handlers.toObject m) =
      .ok { m with MinimumPasswordLength := none, MaxPasswordAge := none,
                   PasswordReusePrevention := none, ExpirePasswords := none } := by
  simp [Handlers.fromObject, lookup_toObject_ResourceId,
    lookup_toObject_MinimumPasswordLength, lookup_toObject_RequireSymbols,
    lookup_toObject_RequireNumbers, lookup_toObject_RequireUppercaseCharacters,
    lookup_toObject_RequireLowercaseCharacters,
    lookup_toObject_AllowUsersToChangePassword, lookup_toObject_MaxPasswordAge,
    lookup_toObject_PasswordReusePrevention, lookup_toObject_HardExpiry,
    parseStringMember_map, parseBoolean_map, parseInteger_map]

/-- C4 witness: the amended claim applied at the non-JSON boolean string
`"maybe"` and at the raw value `"abc"` on the integer field. -/
theorem spec_C4_witness :
    Handlers.fromObject [("RequireSymbols", .str "maybe")] = .error .parseError ∧
    Handlers.fromObject [("MinimumPasswordLength", .str "abc")] =
      .ok { MinimumPasswordLength := Handlers.parseInteger (some (.str "abc")) } :=
  ⟨spec_C4.1 "maybe" rfl, spec_C4.2.1 (.str "abc")⟩

/-! ### Claim C2 -/

/-- C2 counterexample: the claim says NotFound carries the requested
resourceId when present; with the present-but-empty resourceId `""`,
the JavaScript `resourceId || logicalResourceId` falls through to the
logical id, so NotFound carries `"logical-id"` instead of `""`. -/
theorem spec_C2_counterexample :
    Handlers.retrievePasswordPolicy (some ())
        (.error { code := some "NoSuchEntity", message := "policy absent" })
        (some "") (some "logical-id") =
      (.error (.notFound Handlers.TYPE_NAME (some "logical-id")),
       [.getAccountPasswordPolicy]) ∧
    some "logical-id" ≠ some "" :=
  ⟨by decide, by decide⟩

/-- C2 (amended): with a session present, a remote read failure with code
`NoSuchEntity` makes retrieve fail with NotFound carrying
`resourceId || logicalResourceId` — the resourceId when present and
non-empty, otherwise the logicalResourceId (JavaScript truthiness) — and any
other remote failure is rethrown unchanged, not wrapped. -/
theorem spec_C2 :
    (∀ (e : RemoteErr) (rid lid : Option String), e.code = some "NoSuchEntity" →
      Handlers.retrievePasswordPolicy (some ()) (.error e) rid lid =
        (.error (.notFound Handlers.TYPE_NAME (jsOrStr rid lid)),
         [.getAccountPasswordPolicy])) ∧
    (∀ (e : RemoteErr) (rid lid : Option String), e.code ≠ some "NoSuchEntity" →
      Handlers.retrievePasswordPolicy (some ()) (.error e) rid lid =
        (.error (.jsRemote e), [.getAccountPasswordPolicy])) ∧
    (∀ (s : String) (lid : Option String), s ≠ "" → jsOrStr (some s) lid = some s) ∧
    (∀ lid : Option String, jsOrStr none lid = lid) := by
  refine ⟨?_, ?_, ?_, fun lid => rfl⟩
  · intro e rid lid h
    simp [Handlers.retrievePasswordPolicy, h]
  · intro e rid lid h
    simp [Handlers.retrievePasswordPolicy, h]
  · intro s lid h
    simp [jsOrStr, h]

/-- C2 witness: the amended claim applied to a `NoSuchEntity` failure with a
non-empty resourceId and to a `Throttling` failure. -/
theorem spec_C2_witness :
    Handlers.retrievePasswordPolicy (some ())
        (.error { code := some "NoSuchEntity", message := "" }) (some "rid-1") none =
      (.error (.notFound Handlers.TYPE_NAME (jsOrStr (some "rid-1") none)),
       [.getAccountPasswordPolicy]) ∧
    Handlers.retrievePasswordPolicy (some ())
        (.error { code := some "Throttling", message := "slow down" }) none none =
      (.error (.jsRemote { code := some "Throttling", message := "slow down" }),
       [.getAccountPasswordPolicy]) :=
  ⟨spec_C2.1 _ _ _ rfl, spec_C2.2.1 _ _ _ (by decide)⟩

/-! ### Claim C6 -/

/-- Deleting a key from a raw object removes every binding of it, so the key
can no longer be looked up. -/
theorem lookupKey_eraseKey (obj : RawObj) (key : String) :
    lookupKey (eraseKey obj key) key = none := by
  induction obj with
  | nil => rfl
  | cons p rest ih =>
    rcases p with ⟨k, v⟩
    by_cases h : k = key
    · simpa [eraseKey, List.filter_cons, h] using ih
    · simpa [eraseKey, List.filter_cons, h, lookupKey, Ne.symm h] using ih

/-- C6 (confirmed): Create on desired state
`{MinimumPasswordLength: "8", RequireSymbols: "true"}` with no prior
ResourceId invokes the remote write API with a request that omits ResourceId
and carries `MinimumPasswordLength = 8` and `RequireSymbols = true`, and
returns Success with a model whose ResourceId is the freshly generated
non-empty uuid; moreover no write request ever contains ResourceId. -/
theorem spec_C6 (newUuid : String) (h : newUuid ≠ "") :
    Handlers.Resource.create (some ()) (.ok ()) newUuid
        { desiredResourceState := [("MinimumPasswordLength", .str "8"),
                                   ("RequireSymbols", .str "true")],
          logicalResourceIdentifier := some "MyPasswordPolicy" } =
      (.ok { status := .Success,
             resourceModel := some { ResourceId := some newUuid,
                                     MinimumPasswordLength := some (.num 8),
                                     RequireSymbols := some true } },
       [.updateAccountPasswordPolicy
          [("MinimumPasswordLength", .num (.num 8)), ("RequireSymbols", .bool true)]]) ∧
    lookupKey [("MinimumPasswordLength", RawValue.num (.num 8)),
               ("RequireSymbols", RawValue.bool true)] "ResourceId" = none ∧
    some newUuid ≠ some "" ∧
    (∀ m : Handlers.PasswordPolicy,
      lookupKey (eraseKey (Handlers.toObject m) "ResourceId") "ResourceId" = none) := by
  refine ⟨?_, by decide, by simpa using h, fun m => lookupKey_eraseKey _ _⟩
  have hparse : Handlers.fromObject [("MinimumPasswordLength", RawValue.str "8"),
      ("RequireSymbols", RawValue.str "true")] =
      .ok { MinimumPasswordLength := some (.num 8), RequireSymbols := some true } := by
    decide
  have hparams : eraseKey (Handlers.toObject
        { MinimumPasswordLength := some (.num 8),
          RequireSymbols := some true : Handlers.PasswordPolicy }) "ResourceId" =
      [("MinimumPasswordLength", RawValue.num (.num 8)),
       ("RequireSymbols", RawValue.bool true)] := by
    decide
  simp [Handlers.Resource.create, Handlers.upsertPasswordPolicy, hparse, hparams, jsStrFalsy]

/-- C6 witness: the Create scenario at the concrete uuid `"a1b2-uuid"`. -/
theorem spec_C6_witness :
    Handlers.Resource.create (some ()) (.ok ()) "a1b2-uuid"
        { desiredResourceState := [("MinimumPasswordLength", .str "8"),
                                   ("RequireSymbols", .str "true")],
          logicalResourceIdentifier := some "MyPasswordPolicy" } =
      (.ok { status := .Success,
             resourceModel := some { ResourceId := some "a1b2-uuid",
                                     MinimumPasswordLength := some (.num 8),
                                     RequireSymbols := some true } },
       [.updateAccountPasswordPolicy
          [("MinimumPasswordLength", .num (.num 8)), ("RequireSymbols", .bool true)]]) :=
  (spec_C6 "a1b2-uuid" (by decide)).1

/-! ### Claim C7 -/

/-- C7 (confirmed): Update first retrieves the existing remote state and
discards it.  If the retrieve fails with NotFound (remote code
`NoSuchEntity`), the whole Update fails with that NotFound and no write call
is ever made; otherwise Update succeeds with the upserted desired model (a
falsy ResourceId replaced by the fresh uuid) after one read and one write
call. -/
theorem spec_C7 :
    (∀ (req : Handlers.ResourceHandlerRequest) (model : Handlers.PasswordPolicy)
        (e : RemoteErr) (writeResult : Except RemoteErr Unit) (newUuid : String),
      Handlers.fromObject req.desiredResourceState = .ok model →
      e.code = some "NoSuchEntity" →
      Handlers.Resource.update (some ()) (.error e) writeResult newUuid req =
        (.error (.notFound Handlers.TYPE_NAME
            (jsOrStr model.ResourceId req.logicalResourceIdentifier)),
         [.getAccountPasswordPolicy]) ∧
      (∀ params : RawObj,
        Handlers.RemoteCall.updateAccountPasswordPolicy params ∉
          ([.getAccountPasswordPolicy] : List Handlers.RemoteCall))) ∧
    (∀ (req : Handlers.ResourceHandlerRequest) (model m2 : Handlers.PasswordPolicy)
        (obj : RawObj) (newUuid : String),
      Handlers.fromObject req.desiredResourceState = .ok model →
      Handlers.fromObject obj = .ok m2 →
      Handlers.Resource.update (some ()) (.ok obj) (.ok ()) newUuid req =
        (.ok { status := .Success,
               resourceModel := some (if jsStrFalsy model.ResourceId then
                   { model with ResourceId := some newUuid } else model) },
         [.getAccountPasswordPolicy,
          .updateAccountPasswordPolicy (eraseKey (Handlers.toObject model) "ResourceId")])) := by
  constructor
  · intro req model e writeResult newUuid h1 h2
    constructor
    · simp [Handlers.Resource.update, Handlers.retrievePasswordPolicy, h1, h2]
    · intro params
      simp
  · intro req model m2 obj newUuid h1 h2
    simp [Handlers.Resource.update, Handlers.retrievePasswordPolicy,
      Handlers.upsertPasswordPolicy, h1, h2]

/-- C7 witness: the Update scenario at a concrete request whose desired state
is `{HardExpiry: "true"}`, for both the NotFound abort and the success
path. -/
theorem spec_C7_witness :
    (Handlers.Resource.update (some ())
        (.error { code := some "NoSuchEntity", message := "gone" }) (.ok ()) "u-1"
        { desiredResourceState := [("HardExpiry", .str "true")],
          logicalResourceIdentifier := some "logical" } =
      (.error (.notFound Handlers.TYPE_NAME
          (jsOrStr (none : Option String) (some "logical"))),
       [.getAccountPasswordPolicy])) ∧
    (Handlers.Resource.update (some ()) (.ok [("MinimumPasswordLength", .str "6")])
        (.ok ()) "u-1"
        { desiredResourceState := [("HardExpiry", .str "true")],
          logicalResourceIdentifier := some "logical" } =
      (.ok { status := .Success,
             resourceModel := some (if jsStrFalsy
                 ({ HardExpiry := some true : Handlers.PasswordPolicy }).ResourceId then
                 { ({ HardExpiry := some true : Handlers.PasswordPolicy }) with
                     ResourceId := some "u-1" }
               else { HardExpiry := some true : Handlers.PasswordPolicy }) },
       [.getAccountPasswordPolicy,
        .updateAccountPasswordPolicy (eraseKey (Handlers.toObject
            { HardExpiry := some true : Handlers.PasswordPolicy }) "ResourceId")])) :=
  ⟨(spec_C7.1 _ { HardExpiry := some true } _ _ _ (by decide) rfl).1,
   spec_C7.2 _ { HardExpiry := some true } { MinimumPasswordLength := some (.num 6) } _ _
     (by decide) (by decide)⟩

/-! ### Claim C8 -/

/-- C8 (confirmed): when the retrieve inside List fails with NotFound (remote
code `NoSuchEntity`), List returns Success with an empty model list and
throws nothing; any other retrieve failure — a different remote error
rethrown unchanged, or a parse failure of the response — propagates out of
the handler. -/
theorem spec_C8 :
    (∀ (req : Handlers.ResourceHandlerRequest) (e : RemoteErr),
      e.code = some "NoSuchEntity" →
      Handlers.Resource.list (some ()) (.error e) req =
        (.ok { status := .Success, resourceModels := some [] },
         [.getAccountPasswordPolicy])) ∧
    (∀ (req : Handlers.ResourceHandlerRequest) (e : RemoteErr),
      e.code ≠ some "NoSuchEntity" →
      Handlers.Resource.list (some ()) (.error e) req =
        (.error (.jsRemote e), [.getAccountPasswordPolicy])) ∧
    (∀ (req : Handlers.ResourceHandlerRequest) (obj : RawObj),
      Handlers.fromObject obj = .error .parseError →
      Handlers.Resource.list (some ()) (.ok obj) req =
        (.error .parseError, [.getAccountPasswordPolicy])) := by
  refine ⟨?_, ?_, ?_⟩
  · intro req e h
    simp [Handlers.Resource.list, Handlers.retrievePasswordPolicy, h]
  · intro req e h
    simp [Handlers.Resource.list, Handlers.retrievePasswordPolicy, h]
  · intro req obj h
    simp [Handlers.Resource.list, Handlers.retrievePasswordPolicy, h]

/-- C8 witness: List under a `NoSuchEntity` failure returns the empty list,
and under a `Throttling` failure rethrows it. -/
theorem spec_C8_witness :
    (Handlers.Resource.list (some ())
        (.error { code := some "NoSuchEntity", message := "gone" }) {} =
      (.ok { status := .Success, resourceModels := some [] },
       [.getAccountPasswordPolicy])) ∧
    (Handlers.Resource.list (some ())
        (.error { code := some "Throttling", message := "slow" }) {} =
      (.error (.jsRemote { code := some "Throttling", message := "slow" }),
       [.getAccountPasswordPolicy])) :=
  ⟨spec_C8.1 {} _ rfl, spec_C8.2.1 {} _ (by decide)⟩

/-! ### Claim C9 -/

/-- C9 counterexample: a successful Delete does carry a resource model — the
desired-state model parsed at entry — because the progress event is built
with `resourceModel(model)` and never cleared, contradicting the claim that
the result carries no model. -/
theorem spec_C9_counterexample :
    Handlers.Resource.deleteHandler (some ())
        (.ok [("MinimumPasswordLength", .num (.num 6))]) (.ok ())
        { desiredResourceState := [("RequireSymbols", .str "true")],
          logicalResourceIdentifier := some "logical" } =
      (.ok { status := .Success,
             resourceModel := some { RequireSymbols := some true } },
       [.getAccountPasswordPolicy, .deleteAccountPasswordPolicy]) ∧
    (some { RequireSymbols := some true } : Option Handlers.PasswordPolicy) ≠ none :=
  ⟨by decide, by decide⟩

/-- C9 (amended): a successful Delete parses the desired state, retrieves the
current policy, calls the remote delete API, and returns Success — but the
returned event carries the desired-state model as parsed at entry (the
builder sets it and nothing clears it), not no model. -/
theorem spec_C9 :
    ∀ (req : Handlers.ResourceHandlerRequest) (model m2 : Handlers.PasswordPolicy)
      (obj : RawObj),
      Handlers.fromObject req.desiredResourceState = .ok model →
      Handlers.fromObject obj = .ok m2 →
      Handlers.Resource.deleteHandler (some ()) (.ok obj) (.ok ()) req =
        (.ok { status := .Success, resourceModel := some model },
         [.getAccountPasswordPolicy, .deleteAccountPasswordPolicy]) := by
  intro req model m2 obj h1 h2
  simp [Handlers.Resource.deleteHandler, Handlers.retrievePasswordPolicy, h1, h2]

/-- C9 witness: the amended Delete behavior at a concrete request. -/
theorem spec_C9_witness :
    Handlers.Resource.deleteHandler (some ())
        (.ok [("MinimumPasswordLength", .num (.num 6))]) (.ok ())
        { desiredResourceState := [("RequireSymbols", .str "false")],
          logicalResourceIdentifier := some "logical" } =
      (.ok { status := .Success,
             resourceModel := some { RequireSymbols := some false } },
       [.getAccountPasswordPolicy, .deleteAccountPasswordPolicy]) :=
  spec_C9 _ { RequireSymbols := some false } {} _ (by decide) (by decide)

/-! ### Claim C10 -/

/-- C10 (confirmed): with no session, no remote call is made and no error is
thrown: retrieve returns the null model, Read returns Success with a null
resourceModel, and List returns Success whose model list is exactly one null
entry (length 1, not empty). -/
theorem spec_C10 :
    ∀ (readResult : Except RemoteErr RawObj) (rid lid : Option String)
      (req : Handlers.ResourceHandlerRequest),
      Handlers.retrievePasswordPolicy none readResult rid lid = (.ok none, []) ∧
      Handlers.Resource.read none readResult req =
        (.ok { status := .Success, resourceModel := none }, []) ∧
      Handlers.Resource.list none readResult req =
        (.ok { status := .Success, resourceModels := some [none] }, []) ∧
      [(none : Option Handlers.PasswordPolicy)].length = 1 :=
  fun _ _ _ _ => ⟨rfl, rfl, rfl, rfl⟩
